import Mathlib

/-!
Shallow embedding of the Veo Studio generation-request lifecycle controller
(`src/App.tsx`) and its parameter derivation / validation logic
(`src/components/PromptForm.tsx`), over the enums and constants of the
repository's `types.ts`.  Media files, blobs and the provider-side video
object are opaque values identified by a tag; the React `useState` fields of
each component are gathered into one state record, and every event handler
becomes a pure function from state to state.
-/

namespace VeoStudio

/-- `AppState` of types.ts. -/
inductive AppState where
  | idle
  | loading
  | success
  | error
deriving DecidableEq, Repr

/-- `VeoModel` of types.ts. -/
inductive VeoModel where
  | veoFast
  | veo
deriving DecidableEq, Repr

/-- `AspectRatio` of types.ts. -/
inductive AspectRatio where
  | landscape
  | portrait
deriving DecidableEq, Repr

/-- `Resolution` of types.ts. -/
inductive Resolution where
  | p720
  | p1080
deriving DecidableEq, Repr

/-- `GenerationMode` of types.ts. -/
inductive GenerationMode where
  | textToVideo
  | framesToVideo
  | referencesToVideo
  | extendVideo
deriving DecidableEq, Repr

/-- `VideoQuality` of types.ts. -/
inductive VideoQuality where
  | low
  | medium
  | high
deriving DecidableEq, Repr

/-- `EncodingProfile` of types.ts. -/
inductive EncodingProfile where
  | standard
  | highQuality
deriving DecidableEq, Repr

/-- The nine values of `TextOverlay['position']` in types.ts. -/
inductive OverlayPosition where
  | topLeft
  | topCenter
  | topRight
  | midLeft
  | midCenter
  | midRight
  | bottomLeft
  | bottomCenter
  | bottomRight
deriving DecidableEq, Repr

/-- `TextOverlay` of types.ts. -/
structure TextOverlay where
  text : String
  fontSize : Nat
  color : String
  position : OverlayPosition
deriving DecidableEq, Repr

/-- A DOM `File`: its name, an opaque content tag, and its MIME type. -/
structure FileRef where
  name : String
  contentId : Nat
  mime : String
deriving DecidableEq, Repr

/-- A DOM `Blob`: an opaque content tag and its MIME type. -/
structure Blob where
  contentId : Nat
  mime : String
deriving DecidableEq, Repr

/-- `ImageFile` of types.ts: a file plus its base64 payload. -/
structure ImageFile where
  file : FileRef
  base64 : String
deriving DecidableEq, Repr

/-- `VideoFile` of types.ts: a file plus its base64 payload. -/
structure VideoFile where
  file : FileRef
  base64 : String
deriving DecidableEq, Repr

/-- `AudioFile` of types.ts: a file plus its base64 payload. -/
structure AudioFile where
  file : FileRef
  base64 : String
deriving DecidableEq, Repr

/-- The provider-side `Video` object of `@google/genai`, opaque here. -/
structure ProviderVideo where
  handleId : Nat
deriving DecidableEq, Repr

/-- `DEFAULT_VIDEO_DURATION_SECONDS` of types.ts. -/
def DEFAULT_VIDEO_DURATION_SECONDS : Nat := 5

/-- `DEFAULT_FRAME_RATE` of types.ts. -/
def DEFAULT_FRAME_RATE : Nat := 30

/-- `DEFAULT_FONT_SIZE` of types.ts. -/
def DEFAULT_FONT_SIZE : Nat := 36

/-- `DEFAULT_TEXT_COLOR` of types.ts. -/
def DEFAULT_TEXT_COLOR : String := "#FFFFFF"

/-- `GenerateVideoParams` of types.ts.  The objects the app actually builds
(`handleSubmit` in PromptForm.tsx and the extend seed in App.tsx) populate
every field, so the TS-optional fields are embedded as `Option`/`List`
values rather than as possibly-absent keys. -/
structure GenerateVideoParams where
  prompt : String
  model : VeoModel
  aspectRatio : AspectRatio
  resolution : Resolution
  mode : GenerationMode
  startFrame : Option ImageFile
  endFrame : Option ImageFile
  referenceImages : List ImageFile
  styleImage : Option ImageFile
  inputVideo : Option VideoFile
  inputVideoObject : Option ProviderVideo
  isLooping : Bool
  videoQuality : VideoQuality
  durationSeconds : Nat
  frameRate : Nat
  encodingProfile : EncodingProfile
  backgroundMusic : Option AudioFile
  textOverlay : Option TextOverlay
deriving DecidableEq, Repr

/-- The `useState` fields of the `PromptForm` component (PromptForm.tsx). -/
structure FormState where
  prompt : String
  model : VeoModel
  aspectRatio : AspectRatio
  resolution : Resolution
  generationMode : GenerationMode
  startFrame : Option ImageFile
  endFrame : Option ImageFile
  referenceImages : List ImageFile
  styleImage : Option ImageFile
  inputVideo : Option VideoFile
  inputVideoObject : Option ProviderVideo
  isLooping : Bool
  videoQuality : VideoQuality
  durationSeconds : Nat
  frameRate : Nat
  encodingProfile : EncodingProfile
  backgroundMusic : Option AudioFile
  textOverlayEnabled : Bool
  textOverlay : Option TextOverlay
  isSettingsOpen : Bool
  isModeSelectorOpen : Bool
deriving DecidableEq, Repr

/-- The resolution chosen by `handleSubmit` (PromptForm.tsx lines 477-483):
`finalResolution` is fixed to 720p for References-to-Video and Extend-Video
and otherwise derived from the quality tier. -/
def finalResolution (mode : GenerationMode) (quality : VideoQuality) : Resolution :=
  if mode = GenerationMode.referencesToVideo ∨ mode = GenerationMode.extendVideo then
    Resolution.p720
  else if quality = VideoQuality.high then
    Resolution.p1080
  else
    Resolution.p720

/-- The canonical parameter object passed to `onGenerate` by `handleSubmit`
(PromptForm.tsx lines 485-504).  The `textOverlay` entry mirrors the JS
truthiness test `textOverlayEnabled && textOverlay?.text ? textOverlay : null`:
the overlay is passed only when the toggle is on, a record exists, and its
text is non-empty. -/
def buildSubmitParams (s : FormState) : GenerateVideoParams :=
  { prompt := s.prompt
    model := s.model
    aspectRatio := s.aspectRatio
    resolution := finalResolution s.generationMode s.videoQuality
    mode := s.generationMode
    startFrame := s.startFrame
    endFrame := s.endFrame
    referenceImages := s.referenceImages
    styleImage := s.styleImage
    inputVideo := s.inputVideo
    inputVideoObject := s.inputVideoObject
    isLooping := s.isLooping
    videoQuality := s.videoQuality
    durationSeconds := s.durationSeconds
    frameRate := s.frameRate
    encodingProfile := s.encodingProfile
    backgroundMusic := s.backgroundMusic
    textOverlay :=
      if s.textOverlayEnabled then
        match s.textOverlay with
        | some o => if o.text = "" then none else some o
        | none => none
      else none }

/-- The `isSubmitDisabled` switch of PromptForm.tsx (lines 700-735); the
tooltip text computed alongside it is presentation only and not embedded.
`!prompt.trim()` is true exactly when the trimmed prompt is empty, and
`referenceImages.length === 0` / `!startFrame` / `!inputVideoObject` test
emptiness of the respective fields. -/
def isSubmitDisabled (s : FormState) : Bool :=
  match s.generationMode with
  | GenerationMode.textToVideo => s.prompt.trim = ""
  | GenerationMode.framesToVideo => s.startFrame.isNone
  | GenerationMode.referencesToVideo =>
      decide (s.referenceImages.length = 0) || decide (s.prompt.trim = "")
  | GenerationMode.extendVideo => s.inputVideoObject.isNone

/-- `handleSelectMode` of PromptForm.tsx (lines 529-546): switches the mode,
closes the selector, and resets every mode-specific field to its default. -/
def handleSelectMode (mode : GenerationMode) (s : FormState) : FormState :=
  { s with
    generationMode := mode
    isModeSelectorOpen := false
    startFrame := none
    endFrame := none
    referenceImages := []
    styleImage := none
    inputVideo := none
    inputVideoObject := none
    isLooping := false
    durationSeconds := DEFAULT_VIDEO_DURATION_SECONDS
    frameRate := DEFAULT_FRAME_RATE
    encodingProfile := EncodingProfile.standard
    backgroundMusic := none
    textOverlay := none
    textOverlayEnabled := false }

/-- The overlay record seeded by the toggle when no field survives:
empty text, default font size, default color, bottom-center position. -/
def defaultOverlay : TextOverlay :=
  { text := ""
    fontSize := DEFAULT_FONT_SIZE
    color := DEFAULT_TEXT_COLOR
    position := OverlayPosition.bottomCenter }

/-- The text-overlay toggle's `onChange` handler (PromptForm.tsx lines
906-918): unchecking clears the overlay record; checking installs a record
whose fields fall back to the defaults (`?? DEFAULT_...`) only where the
current record is absent. -/
def setTextOverlayToggle (checked : Bool) (s : FormState) : FormState :=
  if checked then
    { s with
      textOverlayEnabled := true
      textOverlay := some
        { text := (s.textOverlay.map TextOverlay.text).getD ""
          fontSize := (s.textOverlay.map TextOverlay.fontSize).getD DEFAULT_FONT_SIZE
          color := (s.textOverlay.map TextOverlay.color).getD DEFAULT_TEXT_COLOR
          position := (s.textOverlay.map TextOverlay.position).getD OverlayPosition.bottomCenter } }
  else
    { s with
      textOverlayEnabled := false
      textOverlay := none }

/-- JavaScript `String.prototype.includes`: the pattern occurs as a
contiguous substring. -/
def jsIncludes (s pat : String) : Bool :=
  decide (pat.toList <:+: s.toList)

/-- JavaScript `String.prototype.toLowerCase`, character by character (all
the strings involved are ASCII). -/
def jsToLowerCase (s : String) : String :=
  s.map Char.toLower

/-- The three classification outcomes of the `catch` block of
`handleGenerate` (App.tsx lines 95-126): which user-facing template is
chosen.  The code does not reify the kind; it is read off from which branch
of the `if`/`else if` chain fires. -/
inductive FailureKind where
  | modelOrKeyNotFound
  | invalidOrUnauthorizedKey
  | generic
deriving DecidableEq, Repr

/-- The branch of the `catch` block of `handleGenerate` that fires for a
given failure message (App.tsx lines 102-121), in source order: the
"Requested entity was not found." test comes first, then the three
invalid-key patterns, else the generic fallback. -/
def classifyFailure (msg : String) : FailureKind :=
  if jsIncludes msg "Requested entity was not found." then
    FailureKind.modelOrKeyNotFound
  else if jsIncludes msg "API_KEY_INVALID" ||
      jsIncludes msg "API key not valid" ||
      jsIncludes (jsToLowerCase msg) "permission denied" then
    FailureKind.invalidOrUnauthorizedKey
  else
    FailureKind.generic

/-- The fixed template shown for the model-not-found branch (App.tsx
lines 104-105). -/
def notFoundUserMsg : String :=
  "Model not found. This can be caused by an invalid API key or permission issues. Please check your API key."

/-- The fixed template shown for the invalid-key branch (App.tsx
lines 114-116). -/
def invalidKeyUserMsg : String :=
  "Your API key is invalid or lacks permissions. Please ensure your API key is correctly configured and has billing enabled. See <a href=\"https://ai.google.dev/gemini-api/docs/billing\" target=\"_blank\" rel=\"noopener noreferrer\" class=\"text-indigo-400 hover:underline\">pricing details</a>."

/-- `userFriendlyMessage` as the `catch` block of `handleGenerate` leaves
it: the matched branch's template, or the generic prefix around the raw
message. -/
def userFriendlyMessage (msg : String) : String :=
  match classifyFailure msg with
  | FailureKind.modelOrKeyNotFound => notFoundUserMsg
  | FailureKind.invalidOrUnauthorizedKey => invalidKeyUserMsg
  | FailureKind.generic => "Video generation failed: " ++ msg

/-- The `useState` fields of the `App` component (App.tsx lines 25-40). -/
structure ControllerState where
  appState : AppState
  videoUrl : Option String
  errorMessage : Option String
  lastConfig : Option GenerateVideoParams
  lastVideoObject : Option ProviderVideo
  lastVideoBlob : Option Blob
  loadingPhaseMessage : Option String
  initialFormValues : Option GenerateVideoParams
  apiKeySelected : Bool
deriving DecidableEq, Repr

/-- The initial `useState` values of `App` (App.tsx lines 25-40). -/
def initState : ControllerState :=
  { appState := AppState.idle
    videoUrl := none
    errorMessage := none
    lastConfig := none
    lastVideoObject := none
    lastVideoBlob := none
    loadingPhaseMessage := none
    initialFormValues := none
    apiKeySelected := false }

/-- The synchronous prefix of `handleGenerate` (App.tsx lines 68-85): the
state writes performed before the `await` of `generateVideo`.  `aistudio`
says whether `window.aistudio` exists; when it does and no key is selected,
the guard block first posts an awaiting message and optimistically marks the
key selected, after which the main block runs unconditionally. -/
def submitStart (aistudio : Bool) (p : GenerateVideoParams) (s : ControllerState) :
    ControllerState :=
  let s0 :=
    if !s.apiKeySelected && aistudio then
      { s with
        loadingPhaseMessage := some "Awaiting API key selection..."
        apiKeySelected := true }
    else s
  { s0 with
    appState := AppState.loading
    errorMessage := none
    lastConfig := some p
    loadingPhaseMessage := some "Initiating video generation..."
    initialFormValues := none }

/-- What `generateVideo` resolves with (geminiService, consumed at App.tsx
line 87): an object URL, the video blob, and the provider-side video
object. -/
structure GenSuccess where
  objectUrl : String
  blob : Blob
  video : ProviderVideo
deriving DecidableEq, Repr

/-- The success continuation of `handleGenerate` (App.tsx lines 90-94),
applied when the `generateVideo` promise resolves: stores the three result
fields, enters Success, clears the progress message — with no check of the
phase it finds. -/
def applySuccess (r : GenSuccess) (s : ControllerState) : ControllerState :=
  { s with
    videoUrl := some r.objectUrl
    lastVideoBlob := some r.blob
    lastVideoObject := some r.video
    appState := AppState.success
    loadingPhaseMessage := none }

/-- The `catch` continuation of `handleGenerate` (App.tsx lines 95-126),
applied when the promise rejects with message `msg`: classifies, stores the
user-facing message, enters Error, clears the progress message, and resets
the key-selected flag on either non-generic branch — with no check of the
phase it finds. -/
def applyFailure (msg : String) (s : ControllerState) : ControllerState :=
  { s with
    errorMessage := some (userFriendlyMessage msg)
    appState := AppState.error
    loadingPhaseMessage := none
    apiKeySelected :=
      if classifyFailure msg = FailureKind.generic then s.apiKeySelected else false }

/-- `handleNewVideo` of App.tsx (lines 135-144): back to Idle with every
result, error, config and seed field cleared. -/
def handleNewVideo (s : ControllerState) : ControllerState :=
  { s with
    appState := AppState.idle
    videoUrl := none
    errorMessage := none
    lastConfig := none
    lastVideoObject := none
    lastVideoBlob := none
    initialFormValues := none
    loadingPhaseMessage := none }

/-- `handleTryAgainFromError` of App.tsx (lines 146-157): with a last
config, seed the form with it and return to Idle; otherwise fall back to
`handleNewVideo`. -/
def handleTryAgainFromError (s : ControllerState) : ControllerState :=
  match s.lastConfig with
  | some c =>
      { s with
        initialFormValues := some c
        appState := AppState.idle
        errorMessage := none
        loadingPhaseMessage := none }
  | none => handleNewVideo s

/-- The `File` built by `handleExtend` from the last video blob (App.tsx
lines 162-164): `new File([lastVideoBlob], 'last_video.mp4', {type})`. -/
def mkExtendFile (b : Blob) : FileRef :=
  { name := "last_video.mp4"
    contentId := b.contentId
    mime := b.mime }

/-- The seed parameter object `handleExtend` installs (App.tsx lines
167-185): spread of `lastConfig` with the listed overrides.  Fields of
`lastConfig` with no override — notably `durationSeconds` — are carried
over by the spread. -/
def extendSeed (c : GenerateVideoParams) (b : Blob) (v : ProviderVideo) :
    GenerateVideoParams :=
  { c with
    mode := GenerationMode.extendVideo
    prompt := ""
    inputVideo := some { file := mkExtendFile b, base64 := "" }
    inputVideoObject := some v
    resolution := Resolution.p720
    videoQuality := VideoQuality.medium
    frameRate := DEFAULT_FRAME_RATE
    encodingProfile := EncodingProfile.standard
    backgroundMusic := none
    textOverlay := none
    startFrame := none
    endFrame := none
    referenceImages := []
    styleImage := none
    isLooping := false }

/-- `handleExtend` of App.tsx (lines 159-198): with last config, blob and
provider object all present, install the extend seed and return to Idle,
clearing the playable URL (but not `lastVideoBlob`/`lastVideoObject`);
otherwise do nothing.  The `File` construction cannot fail in this model,
so the `catch` branch is unreachable and not embedded. -/
def handleExtend (s : ControllerState) : ControllerState :=
  match s.lastConfig, s.lastVideoBlob, s.lastVideoObject with
  | some c, some b, some v =>
      { s with
        initialFormValues := some (extendSeed c b v)
        appState := AppState.idle
        videoUrl := none
        errorMessage := none
        loadingPhaseMessage := none }
  | _, _, _ => s

/-- `canExtend` as App.tsx computes it for `VideoResult` (line 285):
`lastConfig?.resolution === Resolution.P720`. -/
def canExtend (s : ControllerState) : Bool :=
  match s.lastConfig with
  | some c => c.resolution = Resolution.p720
  | none => false

/-- Whether the Extend button is on screen: `VideoResult` is rendered only
in the Success phase with a video URL (App.tsx line 279), and renders its
Extend button only when `canExtend` (VideoResult.tsx lines 122-130). -/
def extendOffered (s : ControllerState) : Bool :=
  decide (s.appState = AppState.success) && s.videoUrl.isSome && canExtend s

/-- A configuration: the controller state together with the number of
`generateVideo` promises currently in flight (each call of `handleGenerate`
awaits one; the count is how many have been started and not yet settled). -/
structure Cfg where
  st : ControllerState
  pending : Nat
deriving DecidableEq, Repr

/-- Invoking `handleGenerate` on a configuration: its synchronous prefix
runs and one more `generateVideo` promise is in flight.  `handleGenerate`
itself contains no phase guard, so this is defined on every
configuration. -/
def submitCfg (aistudio : Bool) (p : GenerateVideoParams) (c : Cfg) : Cfg :=
  { st := submitStart aistudio p c.st, pending := c.pending + 1 }

/-- The UI-driven steps of the application, with `window.aistudio` absent
(the local-dev rendering in which the form is reachable without the
key-selection screen).  Each constructor's guard records which view exposes
the handler: the form only renders in Idle (App.tsx line 223); a promise
settles only while one is in flight; `VideoResult`'s Retry / New Video /
Extend buttons render only in Success with a URL; the Try Again button
renders on the Error view or on the Success-without-URL view. -/
inductive Step : Cfg → Cfg → Prop where
  | submit (p : GenerateVideoParams) (c : Cfg)
      (h : c.st.appState = AppState.idle) :
      Step c (submitCfg false p c)
  | settleOk (r : GenSuccess) (c : Cfg) (h : 0 < c.pending) :
      Step c { st := applySuccess r c.st, pending := c.pending - 1 }
  | settleErr (m : String) (c : Cfg) (h : 0 < c.pending) :
      Step c { st := applyFailure m c.st, pending := c.pending - 1 }
  | retry (p : GenerateVideoParams) (c : Cfg)
      (h : c.st.appState = AppState.success) (hu : c.st.videoUrl.isSome)
      (hc : c.st.lastConfig = some p) :
      Step c (submitCfg false p c)
  | newVideo (c : Cfg)
      (h : c.st.appState = AppState.success) (hu : c.st.videoUrl.isSome) :
      Step c { st := handleNewVideo c.st, pending := c.pending }
  | tryAgain (c : Cfg)
      (h : c.st.appState = AppState.error ∨
        (c.st.appState = AppState.success ∧ c.st.videoUrl = none)) :
      Step c { st := handleTryAgainFromError c.st, pending := c.pending }
  | extend (c : Cfg)
      (h : extendOffered c.st = true) :
      Step c { st := handleExtend c.st, pending := c.pending }

/-- The configurations reachable from the initial render. -/
inductive Reach : Cfg → Prop where
  | init : Reach { st := initState, pending := 0 }
  | step {c c' : Cfg} : Reach c → Step c c' → Reach c'

/-- The inductive invariant of UI-driven executions: at most one request is
in flight; an in-flight request means the phase is Loading and a config was
recorded; Success states carry a recorded config and a playable URL. -/
def Inv (c : Cfg) : Prop :=
  c.pending ≤ 1 ∧
  (c.pending = 1 → c.st.appState = AppState.loading ∧ c.st.lastConfig.isSome) ∧
  (c.st.appState = AppState.success → c.st.lastConfig.isSome ∧ c.st.videoUrl.isSome)

/-- The resolution table in the spec's words, for the refinement comparison
of C1: ReferencesToVideo and ExtendVideo force 720p regardless of quality
tier; all other modes derive 720p for Low/Medium and 1080p for High. -/
def specDerivedResolution (m : GenerationMode) (q : VideoQuality) : Resolution :=
  match m, q with
  | GenerationMode.referencesToVideo, _ => Resolution.p720
  | GenerationMode.extendVideo, _ => Resolution.p720
  | _, VideoQuality.high => Resolution.p1080
  | _, _ => Resolution.p720

/-- The per-mode required-field conditions in the spec's words, for the
comparison of C2: TextToVideo needs a non-empty trimmed prompt;
FramesToVideo a start frame; ReferencesToVideo at least one reference image
and a non-empty trimmed prompt; ExtendVideo the provider-side input-video
handle. -/
def specRequiredUnmet (s : FormState) : Prop :=
  match s.generationMode with
  | GenerationMode.textToVideo => s.prompt.trim = ""
  | GenerationMode.framesToVideo => s.startFrame = none
  | GenerationMode.referencesToVideo =>
      s.referenceImages = [] ∨ s.prompt.trim = ""
  | GenerationMode.extendVideo => s.inputVideoObject = none

/-- A concrete blob for test configurations. -/
def sampleBlob : Blob :=
  { contentId := 77, mime := "video/mp4" }

/-- A concrete provider-side video object for test configurations. -/
def sampleVideoObj : ProviderVideo :=
  { handleId := 42 }

/-- A concrete resolved `generateVideo` result. -/
def sampleSuccess : GenSuccess :=
  { objectUrl := "blob:video-1", blob := sampleBlob, video := sampleVideoObj }

/-- A concrete Text-to-Video parameter set at 720p. -/
def baseParams : GenerateVideoParams :=
  { prompt := "a cat"
    model := VeoModel.veoFast
    aspectRatio := AspectRatio.landscape
    resolution := Resolution.p720
    mode := GenerationMode.textToVideo
    startFrame := none
    endFrame := none
    referenceImages := []
    styleImage := none
    inputVideo := none
    inputVideoObject := none
    isLooping := false
    videoQuality := VideoQuality.medium
    durationSeconds := 5
    frameRate := 30
    encodingProfile := EncodingProfile.standard
    backgroundMusic := none
    textOverlay := none }

/-- A second parameter set, differing from `baseParams` in the prompt. -/
def otherParams : GenerateVideoParams :=
  { baseParams with prompt := "a dog" }

/-- `baseParams` with a non-default duration of 9 seconds. -/
def paramsDur9 : GenerateVideoParams :=
  { baseParams with durationSeconds := 9 }

/-- The Loading configuration reached by submitting `baseParams` from the
initial render. -/
def cfgLoading : Cfg :=
  submitCfg false baseParams { st := initState, pending := 0 }

/-- The Success configuration reached when that request resolves. -/
def cfgSuccess : Cfg :=
  { st := applySuccess sampleSuccess cfgLoading.st, pending := cfgLoading.pending - 1 }

/-- The Idle configuration reached by pressing Extend on that result. -/
def cfgAfterExtend : Cfg :=
  { st := handleExtend cfgSuccess.st, pending := cfgSuccess.pending }

/-- The controller state after a 9-second-duration generation succeeds. -/
def stSuccessDur9 : ControllerState :=
  applySuccess sampleSuccess (submitStart false paramsDur9 initState)

/-- A concrete form state: Text-to-Video with a non-empty prompt and every
media field empty. -/
def baseForm : FormState :=
  { prompt := "a cat"
    model := VeoModel.veoFast
    aspectRatio := AspectRatio.landscape
    resolution := Resolution.p720
    generationMode := GenerationMode.textToVideo
    startFrame := none
    endFrame := none
    referenceImages := []
    styleImage := none
    inputVideo := none
    inputVideoObject := none
    isLooping := false
    videoQuality := VideoQuality.medium
    durationSeconds := 5
    frameRate := 30
    encodingProfile := EncodingProfile.standard
    backgroundMusic := none
    textOverlayEnabled := false
    textOverlay := none
    isSettingsOpen := false
    isModeSelectorOpen := false }

/-- `baseForm` with the text overlay enabled and populated. -/
def overlayForm : FormState :=
  { baseForm with
    textOverlayEnabled := true
    textOverlay := some
      { text := "Hello", fontSize := 20, color := "#00FF00", position := OverlayPosition.topLeft } }

theorem handleExtend_eq (s : ControllerState) :
    handleExtend s = s ∨
    ∃ c b v, s.lastConfig = some c ∧ s.lastVideoBlob = some b ∧
      s.lastVideoObject = some v ∧
      handleExtend s =
        { s with
          initialFormValues := some (extendSeed c b v)
          appState := AppState.idle
          videoUrl := none
          errorMessage := none
          loadingPhaseMessage := none } := by
  rcases hc : s.lastConfig with _ | c
  · left; unfold handleExtend; rw [hc]
  · rcases hb : s.lastVideoBlob with _ | b
    · left; unfold handleExtend; rw [hc, hb]
    · rcases hv : s.lastVideoObject with _ | v
      · left; unfold handleExtend; rw [hc, hb, hv]
      · right
        exact ⟨c, b, v, rfl, rfl, rfl, by unfold handleExtend; rw [hc, hb, hv]⟩

theorem Cfg.pending_mk (s : ControllerState) (n : Nat) : (Cfg.mk s n).pending = n :=
  rfl

theorem Cfg.st_mk (s : ControllerState) (n : Nat) : (Cfg.mk s n).st = s :=
  rfl

theorem inv_init : Inv { st := initState, pending := 0 } := by
  refine ⟨by decide, ?_, ?_⟩ <;> intro h <;> simp [initState] at h

theorem inv_step {c c' : Cfg} (hInv : Inv c) (h : Step c c') : Inv c' := by
  obtain ⟨hle, hpend, hsucc⟩ := hInv
  cases h with
  | submit p c h =>
      have hp0 : c.pending = 0 := by
        by_contra hne
        have h1 := (hpend (by omega)).1
        rw [h] at h1
        exact absurd h1 (by decide)
      refine ⟨?_, ?_, ?_⟩
      · simp only [submitCfg, Cfg.pending_mk]; omega
      · intro _
        exact ⟨by simp [submitCfg, submitStart], by simp [submitCfg, submitStart]⟩
      · intro hs
        simp [submitCfg, submitStart] at hs
  | settleOk r c h =>
      have h1 : c.pending = 1 := by omega
      refine ⟨?_, ?_, ?_⟩
      · simp only [Cfg.pending_mk]; omega
      · intro hp
        simp only [Cfg.pending_mk] at hp
        omega
      · intro _
        refine ⟨?_, by simp [applySuccess]⟩
        have := (hpend h1).2
        simpa [applySuccess] using this
  | settleErr m c h =>
      refine ⟨?_, ?_, ?_⟩
      · simp only [Cfg.pending_mk]; omega
      · intro hp
        simp only [Cfg.pending_mk] at hp
        omega
      · intro hs
        simp [applyFailure] at hs
  | retry p c h hu hc =>
      have hp0 : c.pending = 0 := by
        by_contra hne
        have h1 := (hpend (by omega)).1
        rw [h] at h1
        exact absurd h1 (by decide)
      refine ⟨?_, ?_, ?_⟩
      · simp only [submitCfg, Cfg.pending_mk]; omega
      · intro _
        exact ⟨by simp [submitCfg, submitStart], by simp [submitCfg, submitStart]⟩
      · intro hs
        simp [submitCfg, submitStart] at hs
  | newVideo c h hu =>
      have hp0 : c.pending = 0 := by
        by_contra hne
        have h1 := (hpend (by omega)).1
        rw [h] at h1
        exact absurd h1 (by decide)
      refine ⟨?_, ?_, ?_⟩
      · simp only [Cfg.pending_mk]; omega
      · intro hp
        simp only [Cfg.pending_mk] at hp
        omega
      · intro hs
        simp [handleNewVideo] at hs
  | tryAgain c h =>
      have hne : c.st.appState ≠ AppState.loading := by
        rcases h with h | ⟨h, _⟩ <;> rw [h] <;> decide
      have hp0 : c.pending = 0 := by
        by_contra hne2
        exact hne (hpend (by omega)).1
      refine ⟨?_, ?_, ?_⟩
      · simp only [Cfg.pending_mk]; omega
      · intro hp
        simp only [Cfg.pending_mk] at hp
        omega
      · intro hs
        simp only [Cfg.st_mk] at hs ⊢
        unfold handleTryAgainFromError at hs
        rcases hc : c.st.lastConfig with _ | cfg
        · rw [hc] at hs; simp [handleNewVideo] at hs
        · rw [hc] at hs; simp at hs
  | extend c h =>
      have hsu : c.st.appState = AppState.success := by
        by_contra hne
        simp [extendOffered, hne] at h
      have hp0 : c.pending = 0 := by
        by_contra hne
        have h1 := (hpend (by omega)).1
        rw [hsu] at h1
        exact absurd h1 (by decide)
      refine ⟨?_, ?_, ?_⟩
      · simp only [Cfg.pending_mk]; omega
      · intro hp
        simp only [Cfg.pending_mk] at hp
        omega
      · intro hs
        simp only [Cfg.st_mk] at hs ⊢
        rcases handleExtend_eq c.st with heq | ⟨cfg, b, v, _, _, _, heq⟩
        · rw [heq] at hs ⊢
          exact hsucc hs
        · rw [heq] at hs
          simp at hs

theorem reach_inv {c : Cfg} (h : Reach c) : Inv c := by
  induction h with
  | init => exact inv_init
  | step _ hstep ih => exact inv_step ih hstep

theorem reach_cfgLoading : Reach cfgLoading :=
  Reach.step Reach.init (Step.submit baseParams { st := initState, pending := 0 } rfl)

theorem reach_cfgSuccess : Reach cfgSuccess :=
  Reach.step reach_cfgLoading (Step.settleOk sampleSuccess cfgLoading (by decide))

theorem reach_cfgAfterExtend : Reach cfgAfterExtend :=
  Reach.step reach_cfgSuccess (Step.extend cfgSuccess (by decide))

/-- C1: for every submission, the resolution placed in the submitted
canonical parameter object is the deterministic function of
(mode, videoQuality) given by the spec's table — 720p for
References-to-Video and Extend-Video regardless of quality, otherwise 1080p
for High and 720p for Low/Medium — and it is independent of the
`resolution` value held in UI state at submission time. -/
theorem submitted_resolution_deterministic :
    ∀ s : FormState,
      (buildSubmitParams s).resolution = specDerivedResolution s.generationMode s.videoQuality ∧
      ∀ r : Resolution,
        (buildSubmitParams { s with resolution := r }).resolution =
          (buildSubmitParams s).resolution := by
  intro s
  obtain ⟨p, mo, ar, re, gm, sf, ef, ri, si, iv, ivo, lo, vq, du, fr, ep, bm, toe, tov, so, mso⟩ := s
  refine ⟨?_, fun r => rfl⟩
  cases gm <;> cases vq <;> rfl

/-- C2: `isSubmitDisabled` is true exactly when the active mode's required
fields are unmet — empty trimmed prompt for Text-to-Video, missing start
frame for Frames-to-Video, no reference image or empty trimmed prompt for
References-to-Video, and absent provider-side input-video handle for
Extend-Video. -/
theorem submit_disabled_iff_required_unmet :
    ∀ s : FormState, isSubmitDisabled s = true ↔ specRequiredUnmet s := by
  intro s
  obtain ⟨p, mo, ar, re, gm, sf, ef, ri, si, iv, ivo, lo, vq, du, fr, ep, bm, toe, tov, so, mso⟩ := s
  cases gm <;>
    simp [isSubmitDisabled, specRequiredUnmet, Option.isNone_iff_eq_none,
      List.length_eq_zero]

/-- C3 counterexample: invoking submit (`handleGenerate`) on a concrete
Loading configuration is observable — the controller state changes (the new
params overwrite `lastConfig`) and one more generation request goes in
flight, so the claim that submit-while-Loading has no observable effect is
false of the code. -/
theorem submit_while_loading_observable :
    cfgLoading.st.appState = AppState.loading ∧
    (submitCfg false otherParams cfgLoading).st ≠ cfgLoading.st ∧
    (submitCfg false otherParams cfgLoading).st.lastConfig = some otherParams ∧
    (submitCfg false otherParams cfgLoading).pending = cfgLoading.pending + 1 := by
  refine ⟨rfl, by decide, rfl, rfl⟩

/-- C3 amended: `handleGenerate` has no phase guard.  Invoked while the
phase is Loading it is not rejected: it re-runs the whole submit path —
stays in Loading, overwrites `lastConfig` with the new params, clears the
error and seed values, resets the progress message — and one more
generation request goes in flight.  At-most-one in-flight request holds
only for UI-driven executions, where the form is rendered solely in the
Idle phase. -/
theorem submit_while_loading_resubmits :
    (∀ (c : Cfg) (p : GenerateVideoParams), c.st.appState = AppState.loading →
      (submitCfg false p c).pending = c.pending + 1 ∧
      (submitCfg false p c).st.appState = AppState.loading ∧
      (submitCfg false p c).st.lastConfig = some p ∧
      (submitCfg false p c).st.errorMessage = none ∧
      (submitCfg false p c).st.initialFormValues = none ∧
      (submitCfg false p c).st.loadingPhaseMessage = some "Initiating video generation...") ∧
    (∀ c : Cfg, Reach c → c.pending ≤ 1) := by
  constructor
  · intro c p _
    refine ⟨rfl, ?_, ?_, ?_, ?_, ?_⟩ <;> simp [submitCfg, submitStart]
  · intro c h
    exact (reach_inv h).1

/-- C3 witness: the amended statement's first part applied to the concrete
reachable Loading configuration, and its second to the initial one. -/
theorem submit_while_loading_resubmits_witness :
    ((submitCfg false otherParams cfgLoading).pending = cfgLoading.pending + 1 ∧
      (submitCfg false otherParams cfgLoading).st.appState = AppState.loading ∧
      (submitCfg false otherParams cfgLoading).st.lastConfig = some otherParams ∧
      (submitCfg false otherParams cfgLoading).st.errorMessage = none ∧
      (submitCfg false otherParams cfgLoading).st.initialFormValues = none ∧
      (submitCfg false otherParams cfgLoading).st.loadingPhaseMessage =
        some "Initiating video generation...") ∧
    Cfg.pending { st := initState, pending := 0 } ≤ 1 :=
  ⟨submit_while_loading_resubmits.1 cfgLoading otherParams rfl,
    submit_while_loading_resubmits.2 { st := initState, pending := 0 } Reach.init⟩

/-- C4 counterexample: the success continuation applied to a concrete
non-Loading state (the initial Idle state) is not ignored — it installs the
result and moves the phase to Success, so the claimed phase-still-Loading
guard does not exist in the code. -/
theorem stale_result_overwrites_idle :
    initState.appState = AppState.idle ∧
    applySuccess sampleSuccess initState ≠ initState ∧
    (applySuccess sampleSuccess initState).appState = AppState.success ∧
    (applySuccess sampleSuccess initState).videoUrl = some "blob:video-1" := by
  refine ⟨rfl, by decide, rfl, rfl⟩

/-- C4 amended: the settle continuations of `handleGenerate` apply their
outcome unconditionally — their effect is independent of the phase they
find, so a result settling after the phase changed would overwrite the
newer state.  In UI-driven executions a request in flight implies the phase
is still Loading (the Loading view offers no navigation), which is what
keeps the unguarded application from ever firing against newer state. -/
theorem settle_applies_unconditionally :
    (∀ (s : ControllerState) (r : GenSuccess) (ph ph' : AppState),
      applySuccess r { s with appState := ph } =
        applySuccess r { s with appState := ph' }) ∧
    (∀ (s : ControllerState) (m : String) (ph ph' : AppState),
      applyFailure m { s with appState := ph } =
        applyFailure m { s with appState := ph' }) ∧
    (∀ c : Cfg, Reach c → 0 < c.pending → c.st.appState = AppState.loading) := by
  refine ⟨fun s r ph ph' => rfl, fun s m ph ph' => rfl, ?_⟩
  intro c h hp
  obtain ⟨hle, hpend, _⟩ := reach_inv h
  exact (hpend (by omega)).1

/-- C4 witness: the amended statement's parts at concrete inputs — the
phase-independence of the continuations at the initial state, and the
pending-implies-Loading fact at the reachable Loading configuration. -/
theorem settle_applies_unconditionally_witness :
    applySuccess sampleSuccess { initState with appState := AppState.idle } =
      applySuccess sampleSuccess { initState with appState := AppState.loading } ∧
    applyFailure "boom" { initState with appState := AppState.idle } =
      applyFailure "boom" { initState with appState := AppState.loading } ∧
    cfgLoading.st.appState = AppState.loading :=
  ⟨settle_applies_unconditionally.1 initState sampleSuccess AppState.idle AppState.loading,
    settle_applies_unconditionally.2.1 initState "boom" AppState.idle AppState.loading,
    settle_applies_unconditionally.2.2 cfgLoading reach_cfgLoading (by decide)⟩

/-- C5 counterexample: after a generation whose duration was 9 seconds, the
seed that `handleExtend` installs still carries duration 9 — the spread of
`lastConfig` has no override for `durationSeconds`, so the claim that the
duration is reset to its default (5) is false of the code. -/
theorem extend_seed_duration_not_reset :
    stSuccessDur9.lastConfig = some paramsDur9 ∧
    paramsDur9.durationSeconds = 9 ∧
    DEFAULT_VIDEO_DURATION_SECONDS = 5 ∧
    (handleExtend stSuccessDur9).initialFormValues.map GenerateVideoParams.durationSeconds =
      some 9 := by
  refine ⟨rfl, rfl, rfl, rfl⟩

/-- C5 amended: with a last accepted parameter set and a last result both
present, `handleExtend` installs a seed with mode Extend-Video, empty
prompt, the last parameters' model and aspect ratio, resolution 720p,
quality Medium, the input video and provider handle taken from the last
result, and frame rate, encoding profile, background audio, text overlay,
loop flag, and all image-based media fields reset to their defaults/empty —
but the duration is carried over from the last accepted parameters rather
than reset. -/
theorem extend_seed_characterization :
    ∀ (s : ControllerState) (c : GenerateVideoParams) (b : Blob) (v : ProviderVideo),
      s.lastConfig = some c → s.lastVideoBlob = some b → s.lastVideoObject = some v →
      (handleExtend s).appState = AppState.idle ∧
      (handleExtend s).initialFormValues = some
        { prompt := ""
          model := c.model
          aspectRatio := c.aspectRatio
          resolution := Resolution.p720
          mode := GenerationMode.extendVideo
          startFrame := none
          endFrame := none
          referenceImages := []
          styleImage := none
          inputVideo := some
            { file := { name := "last_video.mp4", contentId := b.contentId, mime := b.mime }
              base64 := "" }
          inputVideoObject := some v
          isLooping := false
          videoQuality := VideoQuality.medium
          durationSeconds := c.durationSeconds
          frameRate := DEFAULT_FRAME_RATE
          encodingProfile := EncodingProfile.standard
          backgroundMusic := none
          textOverlay := none } := by
  intro s c b v hc hb hv
  unfold handleExtend
  rw [hc, hb, hv]
  exact ⟨rfl, rfl⟩

/-- C5 witness: the amended statement at the concrete Success state whose
last accepted parameters had duration 9. -/
theorem extend_seed_characterization_witness :
    (handleExtend stSuccessDur9).appState = AppState.idle ∧
    (handleExtend stSuccessDur9).initialFormValues = some
      { prompt := ""
        model := paramsDur9.model
        aspectRatio := paramsDur9.aspectRatio
        resolution := Resolution.p720
        mode := GenerationMode.extendVideo
        startFrame := none
        endFrame := none
        referenceImages := []
        styleImage := none
        inputVideo := some
          { file :=
              { name := "last_video.mp4"
                contentId := sampleBlob.contentId
                mime := sampleBlob.mime }
            base64 := "" }
        inputVideoObject := some sampleVideoObj
        isLooping := false
        videoQuality := VideoQuality.medium
        durationSeconds := paramsDur9.durationSeconds
        frameRate := DEFAULT_FRAME_RATE
        encodingProfile := EncodingProfile.standard
        backgroundMusic := none
        textOverlay := none } :=
  extend_seed_characterization stSuccessDur9 paramsDur9 sampleBlob sampleVideoObj rfl rfl rfl

/-- C6 counterexample: the message "API key not valid" contains neither
"Requested entity was not found." nor "API_KEY_INVALID", so by the claim it
would be Generic and shown inside the fixed prefix — but the code
classifies it as an invalid/unauthorized key and replaces it with the fixed
key template. -/
theorem classifier_extra_patterns :
    classifyFailure "API key not valid" = FailureKind.invalidOrUnauthorizedKey ∧
    jsIncludes "API key not valid" "API_KEY_INVALID" = false ∧
    jsIncludes "API key not valid" "Requested entity was not found." = false ∧
    userFriendlyMessage "API key not valid" ≠
      "Video generation failed: " ++ "API key not valid" := by
  refine ⟨by decide, by decide, by decide, by decide⟩

theorem jsIncludes_iff (s pat : String) :
    jsIncludes s pat = true ↔ pat.toList <:+: s.toList := by
  simp [jsIncludes]

/-- C6 amended: classification is substring-based and order-sensitive — a
message containing "Requested entity was not found." classifies as
ModelOrKeyNotFound, checked first; otherwise a message containing
"API_KEY_INVALID" or "API key not valid", or containing "permission denied"
after lower-casing, classifies as InvalidOrUnauthorizedKey; any other
message classifies as Generic with the raw message preserved verbatim
inside the fixed prefix. -/
theorem classify_failure_characterization :
    ∀ msg : String,
      (classifyFailure msg = FailureKind.modelOrKeyNotFound ↔
        "Requested entity was not found.".toList <:+: msg.toList) ∧
      (classifyFailure msg = FailureKind.invalidOrUnauthorizedKey ↔
        (¬ "Requested entity was not found.".toList <:+: msg.toList ∧
          ("API_KEY_INVALID".toList <:+: msg.toList ∨
            "API key not valid".toList <:+: msg.toList ∨
            "permission denied".toList <:+: (jsToLowerCase msg).toList))) ∧
      (classifyFailure msg = FailureKind.generic →
        userFriendlyMessage msg = "Video generation failed: " ++ msg) := by
  intro msg
  simp only [classifyFailure, userFriendlyMessage]
  split_ifs with g1 g2
  · exact ⟨⟨fun _ => (jsIncludes_iff _ _).mp g1, fun _ => rfl⟩,
      ⟨False.elim, fun hp => absurd ((jsIncludes_iff _ _).mp g1) hp.1⟩,
      False.elim⟩
  · rw [Bool.or_eq_true, Bool.or_eq_true] at g2
    refine ⟨⟨False.elim, fun hinf => absurd ((jsIncludes_iff _ _).mpr hinf) g1⟩,
      ⟨fun _ => ⟨fun hinf => g1 ((jsIncludes_iff _ _).mpr hinf), ?_⟩, fun _ => rfl⟩,
      False.elim⟩
    rcases g2 with (h | h) | h
    · exact Or.inl ((jsIncludes_iff _ _).mp h)
    · exact Or.inr (Or.inl ((jsIncludes_iff _ _).mp h))
    · exact Or.inr (Or.inr ((jsIncludes_iff _ _).mp h))
  · refine ⟨⟨False.elim, fun hinf => absurd ((jsIncludes_iff _ _).mpr hinf) g1⟩,
      ⟨False.elim, fun hp => absurd ?_ g2⟩, fun _ => rfl⟩
    rw [Bool.or_eq_true, Bool.or_eq_true]
    rcases hp.2 with h | h | h
    · exact Or.inl (Or.inl ((jsIncludes_iff _ _).mpr h))
    · exact Or.inl (Or.inr ((jsIncludes_iff _ _).mpr h))
    · exact Or.inr ((jsIncludes_iff _ _).mpr h)

/-- C7: switching the generation mode resets the start frame, end frame,
reference images, style image, input video and its provider handle, loop
flag, duration, frame rate, encoding profile, background audio, and text
overlay to their defaults/empty, for every starting state and every choice
of old and new mode; in particular the spec's round trip (attach media,
switch away, switch back) leaves the start frame empty. -/
theorem mode_switch_resets_fields :
    ∀ (s : FormState) (m m' : GenerationMode),
      (handleSelectMode m s).generationMode = m ∧
      (handleSelectMode m s).startFrame = none ∧
      (handleSelectMode m s).endFrame = none ∧
      (handleSelectMode m s).referenceImages = [] ∧
      (handleSelectMode m s).styleImage = none ∧
      (handleSelectMode m s).inputVideo = none ∧
      (handleSelectMode m s).inputVideoObject = none ∧
      (handleSelectMode m s).isLooping = false ∧
      (handleSelectMode m s).durationSeconds = DEFAULT_VIDEO_DURATION_SECONDS ∧
      (handleSelectMode m s).frameRate = DEFAULT_FRAME_RATE ∧
      (handleSelectMode m s).encodingProfile = EncodingProfile.standard ∧
      (handleSelectMode m s).backgroundMusic = none ∧
      (handleSelectMode m s).textOverlay = none ∧
      (handleSelectMode m s).textOverlayEnabled = false ∧
      (handleSelectMode m' (handleSelectMode m s)).startFrame = none :=
  fun _ _ _ =>
    ⟨rfl, rfl, rfl, rfl, rfl, rfl, rfl, rfl, rfl, rfl, rfl, rfl, rfl, rfl, rfl⟩

/-- C8 counterexample: the concrete UI-reachable run submit → success →
Extend ends in an Idle configuration that still holds the result blob and
the provider handle, so the claim that every transition to Idle discards
the stored result (equivalently, that result fields are null in every
reachable Idle state) is false of the code. -/
theorem result_survives_extend_to_idle :
    Reach cfgAfterExtend ∧
    cfgAfterExtend.st.appState = AppState.idle ∧
    cfgAfterExtend.st.lastVideoBlob = some sampleBlob ∧
    cfgAfterExtend.st.lastVideoObject = some sampleVideoObj := by
  refine ⟨reach_cfgAfterExtend, ?_, ?_, ?_⟩ <;> rfl

/-- C8 amended: a `GenerationResult` is created only on a transition to
Success — every other step preserves or clears each result field — but of
the transitions to Idle only `handleNewVideo` discards all of it:
`handleExtend` clears just the playable URL and keeps the blob and provider
handle, and `handleTryAgainFromError` (with a last config) keeps all three,
so reachable Idle states can retain result fields. -/
theorem result_lifecycle_characterization :
    (∀ c c' : Cfg, Step c c' → c'.st.appState ≠ AppState.success →
      (c'.st.videoUrl = c.st.videoUrl ∨ c'.st.videoUrl = none) ∧
      (c'.st.lastVideoBlob = c.st.lastVideoBlob ∨ c'.st.lastVideoBlob = none) ∧
      (c'.st.lastVideoObject = c.st.lastVideoObject ∨ c'.st.lastVideoObject = none)) ∧
    (∀ s : ControllerState,
      (handleNewVideo s).videoUrl = none ∧
      (handleNewVideo s).lastVideoBlob = none ∧
      (handleNewVideo s).lastVideoObject = none) ∧
    (∀ (s : ControllerState) (c : GenerateVideoParams) (b : Blob) (v : ProviderVideo),
      s.lastConfig = some c → s.lastVideoBlob = some b → s.lastVideoObject = some v →
      (handleExtend s).appState = AppState.idle ∧
      (handleExtend s).videoUrl = none ∧
      (handleExtend s).lastVideoBlob = some b ∧
      (handleExtend s).lastVideoObject = some v) ∧
    (∀ (s : ControllerState) (c : GenerateVideoParams),
      s.lastConfig = some c →
      (handleTryAgainFromError s).appState = AppState.idle ∧
      (handleTryAgainFromError s).videoUrl = s.videoUrl ∧
      (handleTryAgainFromError s).lastVideoBlob = s.lastVideoBlob ∧
      (handleTryAgainFromError s).lastVideoObject = s.lastVideoObject) := by
  refine ⟨?_, fun s => ⟨rfl, rfl, rfl⟩, ?_, ?_⟩
  · intro c c' hstep hns
    cases hstep with
    | submit p c h =>
        exact ⟨Or.inl (by simp [submitCfg, submitStart]),
          Or.inl (by simp [submitCfg, submitStart]),
          Or.inl (by simp [submitCfg, submitStart])⟩
    | settleOk r c h =>
        exact absurd rfl hns
    | settleErr m c h =>
        exact ⟨Or.inl rfl, Or.inl rfl, Or.inl rfl⟩
    | retry p c h hu hc =>
        exact ⟨Or.inl (by simp [submitCfg, submitStart]),
          Or.inl (by simp [submitCfg, submitStart]),
          Or.inl (by simp [submitCfg, submitStart])⟩
    | newVideo c h hu =>
        exact ⟨Or.inr rfl, Or.inr rfl, Or.inr rfl⟩
    | tryAgain c h =>
        simp only [Cfg.st_mk]
        unfold handleTryAgainFromError
        rcases hc : c.st.lastConfig with _ | cfg
        · exact ⟨Or.inr rfl, Or.inr rfl, Or.inr rfl⟩
        · exact ⟨Or.inl rfl, Or.inl rfl, Or.inl rfl⟩
    | extend c h =>
        simp only [Cfg.st_mk]
        rcases handleExtend_eq c.st with heq | ⟨cfg, b, v, _, _, _, heq⟩
        · rw [heq]; exact ⟨Or.inl rfl, Or.inl rfl, Or.inl rfl⟩
        · rw [heq]; exact ⟨Or.inr rfl, Or.inl rfl, Or.inl rfl⟩
  · intro s c b v hc hb hv
    unfold handleExtend
    rw [hc, hb, hv]
    exact ⟨rfl, rfl, rfl, rfl⟩
  · intro s c hc
    unfold handleTryAgainFromError
    rw [hc]
    exact ⟨rfl, rfl, rfl, rfl⟩

/-- C9 counterexample: on a concrete form state whose overlay holds entered
values, toggling the overlay off and back on yields the default record, not
the previously entered one — disabling destroyed the values, so the claim
that re-enabling restores them is false of the code. -/
theorem overlay_reenable_seeds_defaults :
    overlayForm.textOverlay = some
      { text := "Hello", fontSize := 20, color := "#00FF00", position := OverlayPosition.topLeft } ∧
    (setTextOverlayToggle true (setTextOverlayToggle false overlayForm)).textOverlay =
      some defaultOverlay ∧
    (setTextOverlayToggle true (setTextOverlayToggle false overlayForm)).textOverlay ≠
      overlayForm.textOverlay := by
  refine ⟨rfl, rfl, by decide⟩

/-- C9 amended: enabling the toggle installs a record whose fields fall
back to the defaults only where no record is present (so a surviving record
is preserved verbatim), and disabling clears the entire overlay record —
consequently re-enabling after a disable seeds the defaults again instead
of restoring the previously entered values, which do not survive the
disable. -/
theorem overlay_toggle_characterization :
    ∀ s : FormState,
      ((setTextOverlayToggle false s).textOverlayEnabled = false ∧
        (setTextOverlayToggle false s).textOverlay = none) ∧
      (s.textOverlay = none →
        (setTextOverlayToggle true s).textOverlay = some defaultOverlay) ∧
      (∀ o : TextOverlay, s.textOverlay = some o →
        (setTextOverlayToggle true s).textOverlay = some o) ∧
      (setTextOverlayToggle true (setTextOverlayToggle false s)).textOverlay =
        some defaultOverlay := by
  intro s
  refine ⟨⟨rfl, rfl⟩, ?_, ?_, rfl⟩
  · intro h
    simp [setTextOverlayToggle, h, defaultOverlay]
  · intro o h
    simp [setTextOverlayToggle, h]

/-- C10: in every reachable Success configuration the last accepted
parameter set exists, and the Extend action is on screen exactly when its
resolution is 720p — after a 1080p submission the extend flow is
unreachable from the result view. -/
theorem extend_offered_iff_720p :
    ∀ c : Cfg, Reach c → c.st.appState = AppState.success →
      ∃ p, c.st.lastConfig = some p ∧
        (extendOffered c.st = true ↔ p.resolution = Resolution.p720) := by
  intro c hr hs
  obtain ⟨hle, hpend, hsucc⟩ := reach_inv hr
  obtain ⟨hlc, hurl⟩ := hsucc hs
  obtain ⟨p, hp⟩ := Option.isSome_iff_exists.mp hlc
  refine ⟨p, hp, ?_⟩
  simp [extendOffered, canExtend, hs, hp, hurl]

/-- C10 witness: the characterization applied to the concrete reachable
Success configuration produced by submitting the 720p `baseParams`. -/
theorem extend_offered_iff_720p_witness :
    ∃ p, cfgSuccess.st.lastConfig = some p ∧
      (extendOffered cfgSuccess.st = true ↔ p.resolution = Resolution.p720) :=
  extend_offered_iff_720p cfgSuccess reach_cfgSuccess rfl

end VeoStudio
